import Mathlib

/-!
Shallow embedding of `task_queue.py` from the osm-wikidata repository.

The file models the scheduler/relay service: the worker loop
(`process_queue` / `process_queue_loop`), the upstream capacity check
(`wait_for_slot`), the disk chunk cache, the gevent `PriorityQueue`
(a binary heap over `(priority, payload)` tuples, as in CPython `heapq`),
and the per-connection session handler (`Request.handle`,
`Request.new_place_request`, `Request.send_msg`, the relay loop).

External effects (upstream status calls, fetches, mails, sleeps, cache
writes) are made explicit: the worker functions return a record of the
events they performed, and the environment (outcomes of upstream calls)
is an input.
-/

namespace TaskQueue

/-- Python exceptions that propagate in the modelled code paths. -/
inductive PyErr where
  | keyError (key : String)
  | typeError
  | valueError
  | unexpected (what : String)
  deriving DecidableEq, Repr

/-- Outcome of one call to `overpass.get_status()`: either the distinguished
`OverpassError` (carrying the request URL and response text), a
`requests.exceptions.Timeout`, or a successful status whose `slots` field is
the list of seconds-until-each-slot. -/
inductive StatusOutcome where
  | overpassError (url text : String)
  | timeout
  | ok (slots : List Int)
  deriving DecidableEq, Repr

/-- Whether a status call succeeded (no exception raised). -/
def StatusOutcome.isOk : StatusOutcome → Bool
  | .ok _ => true
  | _ => false

/-- A value that can sit in `msg['place']['area']`, as seen by `float(...)`:
a number, a string (parsed to a rational, or unparsable), or a value of some
other type (for which `float` raises `TypeError`). -/
inductive AreaVal where
  | num (q : ℚ)
  | str (parsed : Option ℚ)
  | other
  deriving DecidableEq, Repr

/-- Python `float(v)`: numbers and numeric strings convert, non-numeric
strings raise `ValueError`, other types raise `TypeError`. -/
def pyFloat : AreaVal → Except PyErr ℚ
  | .num q => .ok q
  | .str (some q) => .ok q
  | .str none => .error .valueError
  | .other => .error .typeError

/-- The `place` sub-dictionary of a request: only the `area` key is read by
the core (`msg['place']['area']`); `none` models an absent key. The `tag`
field stands for the rest of the opaque payload (it is echoed back in
progress messages). -/
structure RawPlace where
  area : Option AreaVal
  tag : String
  deriving DecidableEq, Repr

/-- One chunk specification `{oql?, filename}` from the request payload. -/
structure Chunk where
  oql : Option String
  filename : String
  deriving DecidableEq, Repr

/-- Python truthiness of `chunk.get('oql')`: `None` and the empty string are
falsy, so `if not oql: continue` skips exactly these. -/
def Chunk.hasOql (c : Chunk) : Bool :=
  match c.oql with
  | none => false
  | some s => !s.isEmpty

/-- A decoded top-level client message (a JSON dictionary): `type?` models
`msg.get('type')`; `place` and `chunks` model the presence/absence of those
keys. -/
structure RawMsg where
  type? : Option String
  place : Option RawPlace
  chunks : Option (List Chunk)
  deriving DecidableEq, Repr

/-- A message put on a job's output channel by the worker (the dictionaries
built by `to_client` and the error dictionaries from `wait_for_slot`).
The channel sentinel `None` is modelled as `Option.none` at the channel
level, so `QMsg` covers only real messages. -/
inductive QMsg where
  | status (wait : Int)
  | run_query (num : Nat) (filename : String) (place : RawPlace)
  | chunk (num : Nat) (filename : String) (place : RawPlace)
  | error (err : String)
  deriving DecidableEq, Repr

/-- Whether a channel message is an error message (`to_send['type'] == 'error'`). -/
def QMsg.isError : QMsg → Bool
  | .error _ => true
  | _ => false

/-- The chunk number carried by a `chunk`-type message, if any. -/
def QMsg.chunkNum : QMsg → Option Nat
  | .chunk n _ _ => some n
  | _ => none

/-- Whether a channel message is a `run_query` message. -/
def QMsg.isRunQuery : QMsg → Bool
  | .run_query _ _ _ => true
  | _ => false

/-- An operator alert sent via `mail.send_mail(subject, body)`. -/
structure Mail where
  subject : String
  body : String
  deriving DecidableEq, Repr

/-- The on-disk chunk cache: an association list from file path to file
content. `os.path.exists` is a lookup; writing prepends the new file (only
ever done for a path not yet present). -/
def Cache := List (String × String)

instance : DecidableEq Cache := inferInstanceAs (DecidableEq (List (String × String)))

instance : Repr Cache := inferInstanceAs (Repr (List (String × String)))

/-- The `os.path.exists(filename)` check. -/
def Cache.exists (c : Cache) (filename : String) : Bool :=
  (List.lookup filename c).isSome

/-- Writing fetched bytes to the cache (`open(filename, 'wb')` + `write`). -/
def Cache.write (c : Cache) (filename content : String) : Cache :=
  (filename, content) :: c

/-- Result of one call to `wait_for_slot(send_queue)`: the messages it put on
the queue, the operator mails it sent, the sleeps it performed, and its
boolean return value. -/
structure WaitResult where
  msgs : List QMsg
  mails : List Mail
  sleeps : List Int
  ret : Bool
  deriving DecidableEq, Repr

/-- Model of `wait_for_slot`: on `OverpassError` or `Timeout` it mails the
operator, puts one error message, and returns `False`; on success it returns
`True` immediately when `slots` is empty or the first entry is `<= 0`, and
otherwise puts a `status` message with the wait and sleeps for it. -/
def wait_for_slot (status : StatusOutcome) : WaitResult :=
  match status with
  | .overpassError url text =>
      { msgs := [.error "Can't access overpass API"],
        mails := [⟨"Overpass API unavailable",
                   "URL: " ++ url ++ "\n\nresponse:\n" ++ text⟩],
        sleeps := [], ret := false }
  | .timeout =>
      { msgs := [.error "Can't access overpass API"],
        mails := [⟨"Overpass API timeout", "Timeout talking to overpass API"⟩],
        sleeps := [], ret := false }
  | .ok slots =>
      match slots with
      | [] => { msgs := [], mails := [], sleeps := [], ret := true }
      | secs :: _ =>
          if secs ≤ 0 then { msgs := [], mails := [], sleeps := [], ret := true }
          else { msgs := [.status secs], mails := [], sleeps := [secs], ret := true }

/-- Everything one run of the chunk loop of `process_queue` did for one job:
the channel contents it produced (`none` is the `None` sentinel), mails,
sleeps, the queries actually fetched, the final cache, how many
`get_status` calls it made, how many free-space checks it ran, and whether
an unanticipated exception escaped (`crash`). -/
structure WorkerOut where
  chan : List (Option QMsg)
  mails : List Mail
  sleeps : List Int
  fetched : List String
  cache : Cache
  statusCalls : Nat
  spaceChecks : Nat
  crash : Option PyErr
  deriving DecidableEq, Repr

/-- The chunk loop of `process_queue`, for one job. Inputs beyond the chunk
list: the job's `place` payload, the fetch environment (`overpass.run_query`
outcomes), the status environment (`statuses k` is the outcome of the
`k`-th `get_status` call overall), the current chunk index `num` (from
`enumerate`), the status-call counter `k`, and the cache.

Per chunk: skip entirely when `oql` is falsy (`continue`); when the cache
file exists, emit only the `chunk` message; otherwise check free space, run
`wait_for_slot` (on `False` return the whole function returns — no sentinel
is pushed), emit `run_query`, fetch, write the cache, check free space again,
and emit `chunk`. After all chunks, push the `None` sentinel. An exception
raised by the fetch propagates (`crash`). -/
def process_chunks (place : RawPlace) (fetch : String → Except PyErr String)
    (statuses : Nat → StatusOutcome) :
    List Chunk → Nat → Nat → Cache → WorkerOut
  | [], _, _, cache =>
      { chan := [none], mails := [], sleeps := [], fetched := [],
        cache := cache, statusCalls := 0, spaceChecks := 0, crash := none }
  | c :: rest, num, k, cache =>
      if ¬ c.hasOql then
        process_chunks place fetch statuses rest (num + 1) k cache
      else
        let filename := "overpass/" ++ c.filename
        if cache.exists filename then
          let r := process_chunks place fetch statuses rest (num + 1) k cache
          { r with chan := some (.chunk num c.filename place) :: r.chan }
        else
          let w := wait_for_slot (statuses k)
          if w.ret = false then
            { chan := w.msgs.map some, mails := w.mails, sleeps := w.sleeps,
              fetched := [], cache := cache, statusCalls := 1,
              spaceChecks := 1, crash := none }
          else
            match fetch (c.oql.getD "") with
            | .error e =>
                { chan := w.msgs.map some ++
                    [some (.run_query num c.filename place)],
                  mails := w.mails, sleeps := w.sleeps, fetched := [],
                  cache := cache, statusCalls := 1, spaceChecks := 1,
                  crash := some e }
            | .ok content =>
                let cache' := cache.write filename content
                let r := process_chunks place fetch statuses rest (num + 1)
                    (k + 1) cache'
                { chan := w.msgs.map some ++
                    [some (.run_query num c.filename place),
                     some (.chunk num c.filename place)] ++ r.chan,
                  mails := w.mails ++ r.mails,
                  sleeps := w.sleeps ++ r.sleeps,
                  fetched := (c.oql.getD "") :: r.fetched,
                  cache := r.cache, statusCalls := 1 + r.statusCalls,
                  spaceChecks := 2 + r.spaceChecks, crash := r.crash }

/-- An element of the global `PriorityQueue`: the tuple `(area, item)` put by
`new_place_request`. The payload dictionary (with its embedded `Queue`
object) is identified by its object identity `payload`: two distinct jobs
carry distinct fresh queues, so their dictionaries are never equal and
Python defines no `<` on them. -/
structure Entry where
  prio : ℚ
  payload : Nat
  deriving DecidableEq, Repr

/-- Python `<` on the tuples `(area, item)`: tuple comparison finds the first
component where the tuples differ; equal priorities fall through to dict
comparison, which raises `TypeError` (dicts are unordered); identical
payloads make the tuples equal, so `<` is `False`. -/
def entryLt (a b : Entry) : Except PyErr Bool :=
  if a.prio = b.prio then
    if a.payload = b.payload then .ok false else .error .typeError
  else .ok (decide (a.prio < b.prio))

/-- CPython `heapq._siftdown(heap, startpos, pos)` with `newitem = heap[pos]`
already read out: walk up while `newitem < parent`, moving parents down,
then place `newitem`. A comparison may raise. -/
def siftdown (heap : List Entry) (newitem : Entry) (startpos pos : Nat) :
    Except PyErr (List Entry) :=
  if _h : startpos < pos then
    match heap[(pos - 1) / 2]? with
    | none => .ok heap
    | some parent =>
        match entryLt newitem parent with
        | .error e => .error e
        | .ok true =>
            siftdown (heap.set pos parent) newitem startpos ((pos - 1) / 2)
        | .ok false => .ok (heap.set pos newitem)
  else .ok (heap.set pos newitem)
termination_by pos
decreasing_by omega

/-- CPython `heapq.heappush`: append, then sift the new item up from the last
position. This is what `gevent.queue.PriorityQueue.put` does. -/
def heappush (heap : List Entry) (item : Entry) : Except PyErr (List Entry) :=
  siftdown (heap ++ [item]) item 0 heap.length

/-- CPython `heapq._siftup(heap, pos)` with `newitem = heap[pos]` already
read out: move the hole down to a leaf along the smaller child (the left
child when `heap[childpos] < heap[rightpos]`, the right one otherwise),
then sift `newitem` back up from the leaf. A child comparison may raise. -/
def siftup (heap : List Entry) (newitem : Entry) (startpos pos : Nat) :
    Except PyErr (List Entry) :=
  if _h : 2 * pos + 1 < heap.length then
    match heap[2 * pos + 1]? with
    | none => .ok heap
    | some cl =>
        if _hr : 2 * pos + 2 < heap.length then
          match heap[2 * pos + 2]? with
          | none => .ok heap
          | some cr =>
              match entryLt cl cr with
              | .error e => .error e
              | .ok true =>
                  siftup (heap.set pos cl) newitem startpos (2 * pos + 1)
              | .ok false =>
                  siftup (heap.set pos cr) newitem startpos (2 * pos + 2)
        else siftup (heap.set pos cl) newitem startpos (2 * pos + 1)
  else siftdown (heap.set pos newitem) newitem startpos pos
termination_by heap.length - pos
decreasing_by all_goals simp only [List.length_set]; omega

/-- CPython `heapq.heappop` (what `gevent.queue.PriorityQueue.get` uses on a
non-empty queue): pop the last element; if the heap is still non-empty, the
root is the return value, the last element is placed at the root and sifted
up. An empty queue makes `get` block, modelled as `none`. -/
def heappop (heap : List Entry) : Except PyErr (Option (Entry × List Entry)) :=
  match heap.getLast? with
  | none => .ok none
  | some lastelt =>
      match heap.dropLast with
      | [] => .ok (some (lastelt, []))
      | root :: _ =>
          match siftup (heap.dropLast.set 0 lastelt) lastelt 0 0 with
          | .error e => .error e
          | .ok h2 => .ok (some (root, h2))

/-- One job as dequeued by `process_queue`: its `place` payload and its
chunk list (the output channel is implicit in `WorkerOut.chan`). -/
structure Job where
  place : RawPlace
  chunks : List Chunk
  deriving DecidableEq, Repr

/-- `process_queue` for one dequeued job: run the chunk loop from index 0. -/
def process_queue (fetch : String → Except PyErr String)
    (statuses : Nat → StatusOutcome) (j : Job) (k : Nat) (cache : Cache) :
    WorkerOut :=
  process_chunks j.place fetch statuses j.chunks 0 k cache

/-- Result of running the worker loop over a list of dequeued jobs: the
output channel of each job that was started, the final cache, and the
exception that escaped the loop, if any (jobs after a crash are never
started). -/
structure LoopOut where
  chans : List (List (Option QMsg))
  cache : Cache
  crash : Option PyErr
  deriving DecidableEq, Repr

/-- The body of `process_queue_loop`, applied to the sequence of jobs the
priority queue yields: `while True: process_queue()`, with no exception
handler, so a `crash` in one job terminates the loop and later jobs are
never processed. -/
def process_queue_loop (fetch : String → Except PyErr String)
    (statuses : Nat → StatusOutcome) :
    List Job → Nat → Cache → LoopOut
  | [], _, cache => { chans := [], cache := cache, crash := none }
  | j :: rest, k, cache =>
      let w := process_queue fetch statuses j k cache
      match w.crash with
      | some e => { chans := [w.chan], cache := w.cache, crash := some e }
      | none =>
          let r := process_queue_loop fetch statuses rest (k + w.statusCalls)
              w.cache
          { chans := w.chan :: r.chans, cache := r.cache, crash := r.crash }

/-! ## Session handler (`class Request`) -/

/-- A wire frame written to the client by `Request.send_msg` (the JSON
payload inside the netstring). -/
inductive Frame where
  | connected
  | pong
  | done
  | status (wait : Int)
  | run_query (num : Nat) (filename : String) (place : RawPlace)
  | chunk (num : Nat) (filename : String) (place : RawPlace)
  | error (err : String)
  deriving DecidableEq, Repr

/-- The frame a relayed channel message becomes on the wire. -/
def QMsg.toFrame : QMsg → Frame
  | .status w => .status w
  | .run_query n f p => .run_query n f p
  | .chunk n f p => .chunk n f p
  | .error e => .error e

/-- The chunk number carried by a `chunk`-type frame, if any. -/
def Frame.chunkNum : Frame → Option Nat
  | .chunk n _ _ => some n
  | _ => none

/-- Whether a frame is a `run_query` frame. -/
def Frame.isRunQuery : Frame → Bool
  | .run_query _ _ _ => true
  | _ => false

/-- A frame as sent by `Request.send_msg(msg, check_ack)`: the payload and
whether the handler demands the literal `ack` reply before proceeding
(`check_ack` defaults to `True`; only `reply_and_close` passes `False`). -/
structure SentMsg where
  frame : Frame
  ack : Bool
  deriving DecidableEq, Repr

/-- How a connection's handling ended: the socket was closed, the handler
greenlet died on an uncaught exception, or the handler is blocked forever on
`send_queue.get()` because the channel was exhausted without a sentinel. -/
inductive Term where
  | closed
  | crashed (e : PyErr)
  | blocked
  deriving DecidableEq, Repr

/-- Model of `Request.new_place_request(msg)`: evaluate
`float(msg['place']['area'])` with only `ValueError` caught (mapped to 0) —
a missing `place` or `area` key raises `KeyError` and a non-string,
non-number area raises `TypeError`, both uncaught; then read
`msg['chunks']` (its `KeyError` fires while building the dict, before
`task_queue.put`). On success the job `(area, payload)` is enqueued and
`{type: connected}` is sent with an acknowledgment required. -/
def new_place_request (msg : RawMsg) : Except PyErr (ℚ × RawPlace × List Chunk) :=
  match msg.place with
  | none => .error (.keyError "place")
  | some p =>
      match p.area with
      | none => .error (.keyError "area")
      | some v =>
          match
            (match pyFloat v with
             | .ok q => Except.ok q
             | .error .valueError => Except.ok (0 : ℚ)
             | .error e => Except.error e) with
          | .error e => .error e
          | .ok area =>
              match msg.chunks with
              | none => .error (.keyError "chunks")
              | some cs => .ok (area, p, cs)

/-- The relay loop of `Request.handle`: `to_send = send_queue.get();
while to_send: send_msg(to_send); error |= (type == 'error');
to_send = send_queue.get()`, then — when no write failed — send
`{type: done}` (with the default `check_ack=True`) unless an error message
was forwarded. An exhausted channel with no sentinel leaves the handler
blocked on `get()`. Every forwarded message demands an acknowledgment. -/
def relay (error : Bool) : List (Option QMsg) → List SentMsg × Term
  | [] => ([], .blocked)
  | none :: _ =>
      if error then ([], .closed) else ([⟨.done, true⟩], .closed)
  | some m :: rest =>
      let r := relay (error || m.isError) rest
      (⟨m.toFrame, true⟩ :: r.1, r.2)

/-- What the handler received from the client, after `json.loads` on the
first netstring: undecodable input, or a decoded message. -/
inductive Incoming where
  | invalid
  | decoded (msg : RawMsg)
  deriving DecidableEq, Repr

/-- Everything observable about one connection's handling composed with the
worker's processing of the job it enqueued: the frames written to this
client in order, the job pushed onto the global queue (if any), the worker
events for that job, and how the connection ended. -/
structure SessionOut where
  frames : List SentMsg
  enqueued : Option (ℚ × RawPlace × List Chunk)
  worker : Option WorkerOut
  term : Term
  deriving DecidableEq, Repr

/-- The chunk numbers reported on a job's output channel, in order. -/
def chanChunkNums (chan : List (Option QMsg)) : List Nat :=
  chan.filterMap fun om => om.bind QMsg.chunkNum

/-- The chunk numbers of the `chunk` frames written to a client, in order. -/
def framesChunkNums (fs : List SentMsg) : List Nat :=
  fs.filterMap fun f => f.frame.chunkNum

/-- Model of `Request.handle` composed with the worker run of the enqueued
job: undecodable input gets one no-ack error frame and the socket closes;
a `ping` gets one no-ack `pong` and the socket closes (queue untouched);
anything else goes through `new_place_request` (an uncaught exception there
kills the handler with nothing sent and nothing enqueued), then `connected`
is sent (ack required) and the job's output channel is relayed. -/
def handle (inc : Incoming) (fetch : String → Except PyErr String)
    (statuses : Nat → StatusOutcome) (k : Nat) (cache : Cache) : SessionOut :=
  match inc with
  | .invalid =>
      { frames := [⟨.error "invalid JSON", false⟩], enqueued := none,
        worker := none, term := .closed }
  | .decoded msg =>
      if msg.type? = some "ping" then
        { frames := [⟨.pong, false⟩], enqueued := none, worker := none,
          term := .closed }
      else
        match new_place_request msg with
        | .error e =>
            { frames := [], enqueued := none, worker := none,
              term := .crashed e }
        | .ok (area, p, cs) =>
            let w := process_queue fetch statuses ⟨p, cs⟩ k cache
            let r := relay false w.chan
            { frames := ⟨.connected, true⟩ :: r.1,
              enqueued := some (area, p, cs), worker := some w, term := r.2 }

/-! ## Helper lemmas -/

theorem toFrame_chunkNum (m : QMsg) : m.toFrame.chunkNum = m.chunkNum := by
  cases m <;> rfl

theorem toFrame_ne_done (m : QMsg) : m.toFrame ≠ Frame.done := by
  cases m <;> simp [QMsg.toFrame]

theorem wait_for_slot_ok_shape (st : StatusOutcome) (h : st.isOk = true) :
    (wait_for_slot st).ret = true
    ∧ ∀ m ∈ (wait_for_slot st).msgs, m.isError = false ∧ m.chunkNum = none := by
  cases st with
  | ok slots =>
      cases slots with
      | nil => simp [wait_for_slot, QMsg.isError, QMsg.chunkNum]
      | cons s rest =>
          by_cases hs : s ≤ 0 <;>
            simp [wait_for_slot, hs, QMsg.isError, QMsg.chunkNum]
  | overpassError u t => simp [StatusOutcome.isOk] at h
  | timeout => simp [StatusOutcome.isOk] at h

/-- With every status call succeeding and every fetch succeeding, the chunk
loop of a job whose chunks all carry a query produces a channel consisting
of plain messages followed by exactly one sentinel, in which the `chunk`
messages carry exactly the chunk indices in ascending order and no error
message appears. -/
theorem process_chunks_ok_shape (place : RawPlace)
    (fetch : String → Except PyErr String) (statuses : Nat → StatusOutcome)
    (chunks : List Chunk) (num k : Nat) (cache : Cache)
    (hok : ∀ n, (statuses n).isOk = true)
    (hfetch : ∀ s, ∃ v, fetch s = .ok v)
    (hoql : ∀ c ∈ chunks, c.hasOql = true) :
    ∃ msgs : List QMsg,
      (process_chunks place fetch statuses chunks num k cache).chan
        = msgs.map some ++ [none]
      ∧ msgs.filterMap QMsg.chunkNum = List.range' num chunks.length
      ∧ ∀ m ∈ msgs, m.isError = false := by
  induction chunks generalizing num k cache with
  | nil => exact ⟨[], by simp [process_chunks], by simp, by simp⟩
  | cons c rest ih =>
    have hc : c.hasOql = true := hoql c (List.mem_cons_self c rest)
    have hrest : ∀ c' ∈ rest, c'.hasOql = true :=
      fun c' hm => hoql c' (List.mem_cons_of_mem _ hm)
    by_cases hex : cache.exists ("overpass/" ++ c.filename)
    · obtain ⟨msgs, hchan, hnums, herr⟩ := ih (num + 1) k cache hrest
      refine ⟨.chunk num c.filename place :: msgs, ?_, ?_, ?_⟩
      · simp [process_chunks, hc, hex, hchan]
      · simp [QMsg.chunkNum, hnums, List.range'_succ]
      · intro m hm
        rcases List.mem_cons.mp hm with h | h
        · simp [h, QMsg.isError]
        · exact herr m h
    · obtain ⟨hret, hmsgs⟩ := wait_for_slot_ok_shape (statuses k) (hok k)
      obtain ⟨v, hv⟩ := hfetch (c.oql.getD "")
      obtain ⟨msgs, hchan, hnums, herr⟩ :=
        ih (num + 1) (k + 1) (Cache.write cache ("overpass/" ++ c.filename) v)
          hrest
      refine ⟨(wait_for_slot (statuses k)).msgs ++
        (.run_query num c.filename place :: .chunk num c.filename place :: msgs),
        ?_, ?_, ?_⟩
      · simp [process_chunks, hc, hex, hret, hv, hchan]
      · have hw : (wait_for_slot (statuses k)).msgs.filterMap QMsg.chunkNum
            = [] := by
          rw [List.filterMap_eq_nil_iff]
          exact fun m hm => (hmsgs m hm).2
        simp [List.filterMap_append, hw, QMsg.chunkNum, hnums, List.range'_succ]
      · intro m hm
        rcases List.mem_append.mp hm with h | h
        · exact (hmsgs m h).1
        · rcases List.mem_cons.mp h with h' | h'
          · simp [h', QMsg.isError]
          · rcases List.mem_cons.mp h' with h'' | h''
            · simp [h'', QMsg.isError]
            · exact herr m h''

/-- Relaying a channel of non-error messages followed by the sentinel
forwards each message as an acknowledged frame and ends with one
acknowledged `done` frame before closing. -/
theorem relay_clean (msgs : List QMsg) (herr : ∀ m ∈ msgs, m.isError = false) :
    relay false (msgs.map some ++ [none])
      = (msgs.map (fun m => ⟨m.toFrame, true⟩) ++ [⟨.done, true⟩], .closed) := by
  induction msgs with
  | nil => simp [relay]
  | cons m rest ih =>
    have hm : m.isError = false := herr m (List.mem_cons_self m rest)
    have ih' := ih (fun m' h' => herr m' (List.mem_cons_of_mem _ h'))
    simp [relay, hm, ih']

/-- Every frame produced by the relay loop demands an acknowledgment:
`send_msg` is called there with the default `check_ack=True`. -/
theorem relay_all_ack (er : Bool) (chan : List (Option QMsg)) :
    ∀ f ∈ (relay er chan).1, f.ack = true := by
  induction chan generalizing er with
  | nil => simp [relay]
  | cons om rest ih =>
    cases om with
    | none =>
        by_cases her : er <;> simp [relay, her]
    | some m =>
        intro f hf
        simp only [relay] at hf
        rcases List.mem_cons.mp hf with h | h
        · simp [h]
        · exact ih (er || m.isError) f h

/-! ## Theorems about the claims -/

/-- C10: when the upstream status call succeeds and the reported `slots`
list is empty or its first entry is at most zero, `wait_for_slot` pushes no
status message onto the job's output channel, performs no sleep, sends no
mail, and returns `True`, so `process_queue` proceeds immediately to the
fetch; a status message and exactly one sleep of the reported duration
happen only when the first slot value is strictly positive. -/
theorem C10_slot_check (s : Int) (rest : List Int) :
    wait_for_slot (.ok []) = ⟨[], [], [], true⟩
    ∧ (s ≤ 0 → wait_for_slot (.ok (s :: rest)) = ⟨[], [], [], true⟩)
    ∧ (0 < s → wait_for_slot (.ok (s :: rest)) = ⟨[.status s], [], [s], true⟩) := by
  refine ⟨rfl, fun h => ?_, fun h => ?_⟩
  · simp [wait_for_slot, h]
  · simp [wait_for_slot, show ¬ s ≤ 0 from not_le.mpr h]

/-- Witness for `C10_slot_check` at slots `[-3]` and `[5]`. -/
theorem C10_slot_check_witness :
    wait_for_slot (.ok [-3]) = ⟨[], [], [], true⟩
    ∧ wait_for_slot (.ok [5]) = ⟨[.status 5], [], [5], true⟩ :=
  ⟨(C10_slot_check (-3) []).2.1 (by decide), (C10_slot_check 5 []).2.2 (by decide)⟩

/-- C6 counterexample: with the upstream permanently reporting a required
wait of 5 seconds, the worker makes exactly one status call, sleeps exactly
once, and then fetches anyway — it does not re-check capacity before
fetching and does not loop until capacity is available (a loop would never
fetch in this environment). -/
theorem C6_counterexample :
    (process_chunks ⟨some (.num 1), "P"⟩ (fun _ => .ok "data")
        (fun _ => .ok [5]) [⟨some "q", "f"⟩] 0 0 []).statusCalls = 1
    ∧ (process_chunks ⟨some (.num 1), "P"⟩ (fun _ => .ok "data")
        (fun _ => .ok [5]) [⟨some "q", "f"⟩] 0 0 []).sleeps = [5]
    ∧ (process_chunks ⟨some (.num 1), "P"⟩ (fun _ => .ok "data")
        (fun _ => .ok [5]) [⟨some "q", "f"⟩] 0 0 []).fetched = ["q"] := by
  decide

/-- C6 amended: when the capacity check succeeds with a strictly positive
first slot value, the scheduler emits one status message carrying the wait
duration and suspends once for that duration, then proceeds directly to the
fetch without re-checking capacity — a single fixed wait (one `get_status`
call in total for the chunk). -/
theorem C6_single_wait (s : Int) (hs : 0 < s) (place : RawPlace)
    (oql fn content : String) (hoql : oql.isEmpty = false) :
    wait_for_slot (.ok [s]) = ⟨[.status s], [], [s], true⟩
    ∧ (process_chunks place (fun _ => .ok content) (fun _ => .ok [s])
        [⟨some oql, fn⟩] 0 0 []).statusCalls = 1
    ∧ (process_chunks place (fun _ => .ok content) (fun _ => .ok [s])
        [⟨some oql, fn⟩] 0 0 []).sleeps = [s]
    ∧ (process_chunks place (fun _ => .ok content) (fun _ => .ok [s])
        [⟨some oql, fn⟩] 0 0 []).fetched = [oql]
    ∧ (process_chunks place (fun _ => .ok content) (fun _ => .ok [s])
        [⟨some oql, fn⟩] 0 0 []).chan
      = [some (.status s), some (.run_query 0 fn place),
         some (.chunk 0 fn place), none] := by
  have hns : ¬ s ≤ 0 := not_le.mpr hs
  refine ⟨by simp [wait_for_slot, hns], ?_, ?_, ?_, ?_⟩ <;>
    simp [process_chunks, Chunk.hasOql, hoql, Cache.exists, wait_for_slot, hns]

/-- Witness for `C6_single_wait` at wait 5 and query `"q"`. -/
theorem C6_single_wait_witness :
    wait_for_slot (.ok [5]) = ⟨[.status 5], [], [5], true⟩
    ∧ (process_chunks ⟨none, "W"⟩ (fun _ => .ok "data") (fun _ => .ok [5])
        [⟨some "q", "g"⟩] 0 0 []).statusCalls = 1
    ∧ (process_chunks ⟨none, "W"⟩ (fun _ => .ok "data") (fun _ => .ok [5])
        [⟨some "q", "g"⟩] 0 0 []).sleeps = [5]
    ∧ (process_chunks ⟨none, "W"⟩ (fun _ => .ok "data") (fun _ => .ok [5])
        [⟨some "q", "g"⟩] 0 0 []).fetched = ["q"]
    ∧ (process_chunks ⟨none, "W"⟩ (fun _ => .ok "data") (fun _ => .ok [5])
        [⟨some "q", "g"⟩] 0 0 []).chan
      = [some (.status 5), some (.run_query 0 "g" ⟨none, "W"⟩),
         some (.chunk 0 "g" ⟨none, "W"⟩), none] :=
  C6_single_wait 5 (by decide) ⟨none, "W"⟩ "q" "g" "data" (by decide)

/-- C1: evaluation of the worker loop at the failing input. The first job's
first chunk is uncached and the first `get_status` call raises
`OverpassError`: exactly one error message is put on that job's channel,
exactly one operator mail with the diagnostic is sent, the job's remaining
chunk is abandoned, nothing is fetched for the job, and the loop moves on to
the second job — but the `None` completion sentinel is NOT pushed (the
channel ends after the error message), so the relay loop of `Request.handle`
is left blocked on `send_queue.get()` instead of closing the connection. -/
theorem C1_no_sentinel_at_failing_input :
    (process_queue_loop (fun _ => .ok "d")
        (fun k => if k = 0 then .overpassError "http://overpass" "503" else .ok [])
        [⟨⟨none, "P1"⟩, [⟨some "q1", "f1"⟩, ⟨some "q2", "f2"⟩]⟩,
         ⟨⟨none, "P2"⟩, [⟨some "q3", "f3"⟩]⟩] 0 []).chans
      = [[some (.error "Can't access overpass API")],
         [some (.run_query 0 "f3" ⟨none, "P2"⟩),
          some (.chunk 0 "f3" ⟨none, "P2"⟩), none]]
    ∧ (process_queue (fun _ => .ok "d")
        (fun k => if k = 0 then .overpassError "http://overpass" "503" else .ok [])
        ⟨⟨none, "P1"⟩, [⟨some "q1", "f1"⟩, ⟨some "q2", "f2"⟩]⟩ 0 []).mails
      = [⟨"Overpass API unavailable", "URL: http://overpass\n\nresponse:\n503"⟩]
    ∧ (process_queue (fun _ => .ok "d")
        (fun k => if k = 0 then .overpassError "http://overpass" "503" else .ok [])
        ⟨⟨none, "P1"⟩, [⟨some "q1", "f1"⟩, ⟨some "q2", "f2"⟩]⟩ 0 []).fetched = []
    ∧ relay false [some (.error "Can't access overpass API")]
      = ([⟨.error "Can't access overpass API", true⟩], .blocked) := by
  decide

/-- C4 counterexample: an unanticipated fault in the first job's fetch
(`overpass.run_query` raising) escapes `process_queue` and terminates the
whole worker loop — the second dequeued job is never processed, refuting the
claim that the worker continues with subsequent jobs. -/
theorem C4_counterexample :
    process_queue_loop (fun _ => .error (.unexpected "boom")) (fun _ => .ok [])
        [⟨⟨none, "P1"⟩, [⟨some "q1", "f1"⟩]⟩,
         ⟨⟨none, "P2"⟩, [⟨some "q2", "f2"⟩]⟩] 0 []
      = { chans := [[some (.run_query 0 "f1" ⟨none, "P1"⟩)]], cache := [],
          crash := some (.unexpected "boom") } := by
  decide

/-- C4 amended: `process_queue_loop` has no per-job isolation: an
unanticipated exception escaping one job's chunk loop carries the same
exception out of the worker loop and jobs dequeued after it are never
started; only when the job finishes without such an exception (including
the anticipated capacity-check failure path, which returns normally) does
the worker continue with the next job. -/
theorem C4_crash_kills_loop (fetch : String → Except PyErr String)
    (statuses : Nat → StatusOutcome) (j : Job) (rest : List Job) (k : Nat)
    (cache : Cache) :
    (∀ e, (process_queue fetch statuses j k cache).crash = some e →
        (process_queue_loop fetch statuses (j :: rest) k cache).crash = some e
        ∧ (process_queue_loop fetch statuses (j :: rest) k cache).chans
            = [(process_queue fetch statuses j k cache).chan])
    ∧ ((process_queue fetch statuses j k cache).crash = none →
        (process_queue_loop fetch statuses (j :: rest) k cache).chans
          = (process_queue fetch statuses j k cache).chan ::
            (process_queue_loop fetch statuses rest
              (k + (process_queue fetch statuses j k cache).statusCalls)
              (process_queue fetch statuses j k cache).cache).chans) := by
  constructor
  · intro e he
    constructor <;> simp [process_queue_loop, he]
  · intro he
    simp [process_queue_loop, he]

/-- Witness for `C4_crash_kills_loop`: a crashing fetch at job `A` kills the
loop, and a clean environment lets the loop continue past job `A`. -/
theorem C4_crash_kills_loop_witness :
    (process_queue_loop (fun _ => .error (.unexpected "x")) (fun _ => .ok [])
        [⟨⟨none, "A"⟩, [⟨some "q", "g"⟩]⟩, ⟨⟨none, "B"⟩, []⟩] 0 []).crash
      = some (.unexpected "x")
    ∧ (process_queue_loop (fun _ => .ok "d") (fun _ => .ok [])
        [⟨⟨none, "A"⟩, [⟨some "q", "g"⟩]⟩, ⟨⟨none, "B"⟩, []⟩] 0 []).chans
      = (process_queue (fun _ => .ok "d") (fun _ => .ok [])
            ⟨⟨none, "A"⟩, [⟨some "q", "g"⟩]⟩ 0 []).chan ::
        (process_queue_loop (fun _ => .ok "d") (fun _ => .ok [])
            [⟨⟨none, "B"⟩, []⟩]
            (0 + (process_queue (fun _ => .ok "d") (fun _ => .ok [])
                ⟨⟨none, "A"⟩, [⟨some "q", "g"⟩]⟩ 0 []).statusCalls)
            (process_queue (fun _ => .ok "d") (fun _ => .ok [])
                ⟨⟨none, "A"⟩, [⟨some "q", "g"⟩]⟩ 0 []).cache).chans :=
  ⟨((C4_crash_kills_loop (fun _ => .error (.unexpected "x")) (fun _ => .ok [])
      ⟨⟨none, "A"⟩, [⟨some "q", "g"⟩]⟩ [⟨⟨none, "B"⟩, []⟩] 0 []).1
      (.unexpected "x") (by decide)).1,
   (C4_crash_kills_loop (fun _ => .ok "d") (fun _ => .ok [])
      ⟨⟨none, "A"⟩, [⟨some "q", "g"⟩]⟩ [⟨⟨none, "B"⟩, []⟩] 0 []).2 (by decide)⟩

/-- C3 counterexample: the code attaches no insertion sequence number to an
enqueued job — the queue holds bare `(priority, payload)` tuples. Enqueueing
a first job with priority 2 succeeds, but enqueueing a second, distinct job
with the same priority 2 makes the heap compare the two payload
dictionaries and raises `TypeError`: equal-priority jobs are not dequeued
in insertion order, and the ordering is not total. -/
theorem C3_counterexample :
    heappush [] ⟨2, 1⟩ = .ok [⟨2, 1⟩]
    ∧ heappush [⟨2, 1⟩] ⟨2, 2⟩ = .error .typeError := by
  constructor
  · simp [heappush, siftdown]
  · simp [heappush, siftdown, entryLt]

/-- C3 amended: for two enqueued jobs with distinct priorities, the one
with the strictly lower priority is dequeued first regardless of arrival
order (both push orders produce the same heap, whose first pop is the
lower-priority job); but there is no insertion sequence number: pushing a
second distinct job whose priority equals one already in the heap raises
`TypeError` from the payload comparison, so equal-priority ordering is
undefined rather than insertion-ordered. -/
theorem C3_lower_priority_first (p1 p2 : ℚ) (x1 x2 : Nat) (hp : p1 < p2) :
    heappush [⟨p1, x1⟩] ⟨p2, x2⟩ = .ok [⟨p1, x1⟩, ⟨p2, x2⟩]
    ∧ heappush [⟨p2, x2⟩] ⟨p1, x1⟩ = .ok [⟨p1, x1⟩, ⟨p2, x2⟩]
    ∧ heappop [⟨p1, x1⟩, ⟨p2, x2⟩] = .ok (some (⟨p1, x1⟩, [⟨p2, x2⟩]))
    ∧ ∀ y1 y2 : Nat, y1 ≠ y2 → heappush [⟨p1, y1⟩] ⟨p1, y2⟩ = .error .typeError := by
  refine ⟨?_, ?_, ?_, fun y1 y2 hy => ?_⟩
  · have hne : p2 ≠ p1 := ne_of_gt hp
    have hnlt : ¬ (p2 < p1) := not_lt_of_gt hp
    simp [heappush, siftdown, entryLt, hne, hnlt, List.set]
  · have hne : p1 ≠ p2 := ne_of_lt hp
    simp [heappush, siftdown, entryLt, hne, hp, List.set]
  · simp [heappop, siftup, siftdown, entryLt, List.set]
  · simp [heappush, siftdown, entryLt, Ne.symm hy]

/-- Witness for `C3_lower_priority_first` at priorities 2 and 10. -/
theorem C3_lower_priority_first_witness :
    heappush [⟨2, 7⟩] ⟨10, 8⟩ = .ok [⟨2, 7⟩, ⟨10, 8⟩]
    ∧ heappush [⟨10, 8⟩] ⟨2, 7⟩ = .ok [⟨2, 7⟩, ⟨10, 8⟩]
    ∧ heappop [⟨2, 7⟩, ⟨10, 8⟩] = .ok (some (⟨2, 7⟩, [⟨10, 8⟩]))
    ∧ heappush [⟨(2 : ℚ), 3⟩] ⟨2, 4⟩ = .error .typeError := by
  have h := C3_lower_priority_first 2 10 7 8 (by norm_num)
  exact ⟨h.1, h.2.1, h.2.2.1, h.2.2.2 3 4 (by decide)⟩

/-- C7: processing a job all of whose query-bearing chunks already have
their cache files on disk performs no fetch at all, makes no status call,
sleeps never, leaves the cache directory byte-identical, puts zero
`run_query` messages on the output channel, and reports one `chunk` message
per query-bearing chunk: for every chunk whose cache key exists the network
path is skipped entirely and the key is never refetched. -/
theorem C7_cached_idempotent (place : RawPlace)
    (fetch : String → Except PyErr String) (statuses : Nat → StatusOutcome)
    (chunks : List Chunk) (num k : Nat) (cache : Cache)
    (hcached : ∀ c ∈ chunks, c.hasOql = true →
        cache.exists ("overpass/" ++ c.filename) = true) :
    (process_chunks place fetch statuses chunks num k cache).cache = cache
    ∧ (process_chunks place fetch statuses chunks num k cache).fetched = []
    ∧ (process_chunks place fetch statuses chunks num k cache).sleeps = []
    ∧ (process_chunks place fetch statuses chunks num k cache).statusCalls = 0
    ∧ (process_chunks place fetch statuses chunks num k cache).chan.countP
        (fun om => (om.map QMsg.isRunQuery).getD false) = 0
    ∧ (chanChunkNums
        (process_chunks place fetch statuses chunks num k cache).chan).length
      = chunks.countP Chunk.hasOql := by
  induction chunks generalizing num with
  | nil => simp [process_chunks, chanChunkNums]
  | cons c rest ih =>
    have hrest : ∀ c' ∈ rest, c'.hasOql = true →
        cache.exists ("overpass/" ++ c'.filename) = true :=
      fun c' hm => hcached c' (List.mem_cons_of_mem _ hm)
    by_cases hc : c.hasOql
    · have hex := hcached c (List.mem_cons_self c rest) hc
      obtain ⟨h1, h2, h3, h4, h5, h6⟩ := ih (num + 1) hrest
      refine ⟨?_, ?_, ?_, ?_, ?_, ?_⟩
      · simpa [process_chunks, hc, hex] using h1
      · simpa [process_chunks, hc, hex] using h2
      · simpa [process_chunks, hc, hex] using h3
      · simpa [process_chunks, hc, hex] using h4
      · simpa [process_chunks, hc, hex, List.countP_cons, QMsg.isRunQuery]
          using h5
      · simpa [process_chunks, hc, hex, chanChunkNums, QMsg.chunkNum,
          List.countP_cons] using h6
    · obtain ⟨h1, h2, h3, h4, h5, h6⟩ := ih (num + 1) hrest
      refine ⟨?_, ?_, ?_, ?_, ?_, ?_⟩
      · simpa [process_chunks, hc] using h1
      · simpa [process_chunks, hc] using h2
      · simpa [process_chunks, hc] using h3
      · simpa [process_chunks, hc] using h4
      · simpa [process_chunks, hc] using h5
      · simpa [process_chunks, hc, List.countP_cons] using h6

/-- Witness for `C7_cached_idempotent`: a job with one cached query chunk
and one queryless chunk, on a one-file cache. -/
theorem C7_cached_idempotent_witness :
    (process_chunks ⟨none, "W7"⟩ (fun _ => .ok "zz") (fun _ => .ok [])
        [⟨some "q7", "f7"⟩, ⟨none, "g7"⟩] 0 0 [("overpass/f7", "x")]).cache
      = [("overpass/f7", "x")]
    ∧ (process_chunks ⟨none, "W7"⟩ (fun _ => .ok "zz") (fun _ => .ok [])
        [⟨some "q7", "f7"⟩, ⟨none, "g7"⟩] 0 0 [("overpass/f7", "x")]).fetched = []
    ∧ (process_chunks ⟨none, "W7"⟩ (fun _ => .ok "zz") (fun _ => .ok [])
        [⟨some "q7", "f7"⟩, ⟨none, "g7"⟩] 0 0 [("overpass/f7", "x")]).sleeps = []
    ∧ (process_chunks ⟨none, "W7"⟩ (fun _ => .ok "zz") (fun _ => .ok [])
        [⟨some "q7", "f7"⟩, ⟨none, "g7"⟩] 0 0
        [("overpass/f7", "x")]).statusCalls = 0
    ∧ (process_chunks ⟨none, "W7"⟩ (fun _ => .ok "zz") (fun _ => .ok [])
        [⟨some "q7", "f7"⟩, ⟨none, "g7"⟩] 0 0 [("overpass/f7", "x")]).chan.countP
        (fun om => (om.map QMsg.isRunQuery).getD false) = 0
    ∧ (chanChunkNums (process_chunks ⟨none, "W7"⟩ (fun _ => .ok "zz")
        (fun _ => .ok []) [⟨some "q7", "f7"⟩, ⟨none, "g7"⟩] 0 0
        [("overpass/f7", "x")]).chan).length
      = List.countP Chunk.hasOql [⟨some "q7", "f7"⟩, ⟨none, "g7"⟩] :=
  C7_cached_idempotent ⟨none, "W7"⟩ (fun _ => .ok "zz") (fun _ => .ok [])
    [⟨some "q7", "f7"⟩, ⟨none, "g7"⟩] 0 0 [("overpass/f7", "x")] (by decide)

/-- C2 counterexample: a job with one chunk whose `oql` is absent. The
chunks list has length 1, yet the client receives zero `chunk` messages —
the `continue` in `process_queue` skips queryless chunks entirely instead
of reporting them without a fetch, so the claimed "exactly N chunk
messages, including chunks whose queryText is absent" fails at N = 1. -/
theorem C2_counterexample :
    (handle (.decoded ⟨none, some ⟨some (.num 5), "P"⟩, some [⟨none, "f"⟩]⟩)
        (fun _ => .ok "d") (fun _ => .ok []) 0 []).frames
      = [⟨.connected, true⟩, ⟨.done, true⟩]
    ∧ framesChunkNums (handle (.decoded ⟨none, some ⟨some (.num 5), "P"⟩,
        some [⟨none, "f"⟩]⟩) (fun _ => .ok "d") (fun _ => .ok []) 0 []).frames
      = [] := by
  decide

/-- C2 amended: for a job all of whose N chunks carry a non-empty query,
processed with no upstream failures, the client receives exactly N `chunk`
frames, one per chunk, with `num` values exactly `0, ..., N-1` in ascending
order, followed by exactly one `done` frame which is the final frame, and
the connection closes; chunks with absent `queryText` are skipped entirely
(no message and no fetch), not reported. -/
theorem C2_all_present_oql (ty : Option String) (tag : String) (a : AreaVal)
    (q : ℚ) (cs : List Chunk) (fetch : String → Except PyErr String)
    (statuses : Nat → StatusOutcome) (k : Nat) (cache : Cache)
    (hty : ty ≠ some "ping") (ha : pyFloat a = .ok q)
    (hok : ∀ n, (statuses n).isOk = true)
    (hfetch : ∀ s, ∃ v, fetch s = .ok v)
    (hoql : ∀ c ∈ cs, c.hasOql = true) :
    framesChunkNums (handle (.decoded ⟨ty, some ⟨some a, tag⟩, some cs⟩)
        fetch statuses k cache).frames = List.range cs.length
    ∧ (handle (.decoded ⟨ty, some ⟨some a, tag⟩, some cs⟩)
        fetch statuses k cache).frames.countP
          (fun f => decide (f.frame = Frame.done)) = 1
    ∧ (handle (.decoded ⟨ty, some ⟨some a, tag⟩, some cs⟩)
        fetch statuses k cache).frames.getLast? = some ⟨.done, true⟩
    ∧ (handle (.decoded ⟨ty, some ⟨some a, tag⟩, some cs⟩)
        fetch statuses k cache).term = .closed := by
  obtain ⟨msgs, hchan, hnums, herr⟩ :=
    process_chunks_ok_shape ⟨some a, tag⟩ fetch statuses cs 0 k cache hok
      hfetch hoql
  have hrel := relay_clean msgs herr
  have hhandle : handle (.decoded ⟨ty, some ⟨some a, tag⟩, some cs⟩)
      fetch statuses k cache
      = { frames := ⟨.connected, true⟩ ::
            (msgs.map (fun m => ⟨m.toFrame, true⟩) ++ [⟨.done, true⟩]),
          enqueued := some (q, ⟨some a, tag⟩, cs),
          worker := some (process_queue fetch statuses ⟨⟨some a, tag⟩, cs⟩ k
            cache),
          term := .closed } := by
    simp [handle, hty, new_place_request, ha, process_queue] at hchan ⊢
    simp [hchan, hrel]
  rw [hhandle]
  refine ⟨?_, ?_, ?_, rfl⟩
  · have hmap : framesChunkNums (msgs.map (fun m => ⟨m.toFrame, true⟩))
        = msgs.filterMap QMsg.chunkNum := by
      clear hnums herr hrel hhandle hchan
      induction msgs with
      | nil => rfl
      | cons m rest ih =>
          simp only [List.map_cons, framesChunkNums, List.filterMap_cons] at *
          simp only [toFrame_chunkNum]
          cases m.chunkNum <;> simp [ih]
    have hsplit : framesChunkNums
          ((⟨Frame.connected, true⟩ : SentMsg) ::
            (msgs.map (fun m => ⟨m.toFrame, true⟩) ++ [⟨Frame.done, true⟩]))
        = framesChunkNums (msgs.map (fun m => ⟨m.toFrame, true⟩)) := by
      simp [framesChunkNums, List.filterMap_cons, List.filterMap_append,
        Frame.chunkNum]
    rw [hsplit, hmap, hnums, List.range_eq_range']
  · have h0 : (msgs.map (fun m => (⟨m.toFrame, true⟩ : SentMsg))).countP
        (fun f => decide (f.frame = Frame.done)) = 0 := by
      rw [List.countP_eq_zero]
      intro f hf
      obtain ⟨m, hm, rfl⟩ := List.mem_map.mp hf
      simp [toFrame_ne_done m]
    simp [List.countP_cons, List.countP_append, h0, Frame.chunkNum]
  · rw [show (⟨Frame.connected, true⟩ : SentMsg) ::
        (msgs.map (fun m => ⟨m.toFrame, true⟩) ++ [⟨Frame.done, true⟩])
        = ((⟨Frame.connected, true⟩ : SentMsg) ::
            msgs.map (fun m => ⟨m.toFrame, true⟩)) ++ [⟨Frame.done, true⟩]
      from by simp]
    exact List.getLast?_concat _

/-- Witness for `C2_all_present_oql`: one chunk with a query, clean
environment. -/
theorem C2_all_present_oql_witness :
    framesChunkNums (handle (.decoded ⟨none, some ⟨some (.num 3), "W2"⟩,
        some [⟨some "qq", "fw"⟩]⟩) (fun _ => .ok "dd")
        (fun _ => .ok []) 0 []).frames = List.range 1
    ∧ (handle (.decoded ⟨none, some ⟨some (.num 3), "W2"⟩,
        some [⟨some "qq", "fw"⟩]⟩) (fun _ => .ok "dd")
        (fun _ => .ok []) 0 []).frames.countP
          (fun f => decide (f.frame = Frame.done)) = 1
    ∧ (handle (.decoded ⟨none, some ⟨some (.num 3), "W2"⟩,
        some [⟨some "qq", "fw"⟩]⟩) (fun _ => .ok "dd")
        (fun _ => .ok []) 0 []).frames.getLast? = some ⟨.done, true⟩
    ∧ (handle (.decoded ⟨none, some ⟨some (.num 3), "W2"⟩,
        some [⟨some "qq", "fw"⟩]⟩) (fun _ => .ok "dd")
        (fun _ => .ok []) 0 []).term = .closed :=
  C2_all_present_oql none "W2" (.num 3) 3 [⟨some "qq", "fw"⟩]
    (fun _ => .ok "dd") (fun _ => .ok []) 0 [] (by decide) rfl
    (fun _ => rfl) (fun _ => ⟨"dd", rfl⟩) (by decide)

/-- C5 counterexample: the `done` message is sent by
`self.send_msg({'type': 'done'})` with the default `check_ack=True`, so the
client must acknowledge it — here a completed session contains the frame
`done` with the acknowledgment flag set, contradicting the claim that
`done` expects no acknowledgment. -/
theorem C5_counterexample :
    (⟨Frame.done, true⟩ : SentMsg) ∈ (handle (.decoded ⟨none,
        some ⟨some (.num 2), "P5"⟩, some []⟩) (fun _ => .ok "d")
        (fun _ => .ok []) 0 []).frames := by
  decide

/-- C5 amended: every server-to-client frame except `pong` and the
malformed-input error requires the acknowledgment before the next send —
and that includes `done`, which is also sent with the acknowledgment
required (only `reply_and_close`, used for `pong` and the invalid-JSON
error, skips the acknowledgment). -/
theorem C5_ack_discipline (inc : Incoming) (fetch : String → Except PyErr String)
    (statuses : Nat → StatusOutcome) (k : Nat) (cache : Cache) :
    (∀ f ∈ (handle inc fetch statuses k cache).frames,
      (f.ack = false → f.frame = .pong ∨ f.frame = .error "invalid JSON")
      ∧ (f.frame = .done → f.ack = true))
    ∧ handle .invalid fetch statuses k cache
        = { frames := [⟨.error "invalid JSON", false⟩], enqueued := none,
            worker := none, term := .closed }
    ∧ ∀ msg : RawMsg, msg.type? = some "ping" →
        handle (.decoded msg) fetch statuses k cache
          = { frames := [⟨.pong, false⟩], enqueued := none, worker := none,
              term := .closed } := by
  refine ⟨?_, rfl, fun msg hping => by simp [handle, hping]⟩
  cases inc with
  | invalid =>
      intro f hf
      simp only [handle, List.mem_singleton] at hf
      subst hf
      exact ⟨fun _ => Or.inr rfl, fun h => by simp at h⟩
  | decoded msg =>
      by_cases hping : msg.type? = some "ping"
      · intro f hf
        simp [handle, hping] at hf
        subst hf
        exact ⟨fun _ => Or.inl rfl, fun h => by simp at h⟩
      · intro f hf
        simp only [handle] at hf
        rw [if_neg hping] at hf
        rcases hreq : new_place_request msg with e | ⟨area, p, cs⟩ <;>
          rw [hreq] at hf
        · simp at hf
        · simp only [List.mem_cons] at hf
          rcases hf with hfc | hfr
          · subst hfc
            exact ⟨fun hc => by simp at hc, fun _ => rfl⟩
          · have hall := relay_all_ack false
              (process_queue fetch statuses ⟨p, cs⟩ k cache).chan f hfr
            exact ⟨fun hc => by rw [hall] at hc; simp at hc, fun _ => hall⟩

/-- Witness for `C5_ack_discipline`: applied to a session whose frames are
`connected` and `done`, at the `done` frame. -/
theorem C5_ack_discipline_witness :
    ((⟨Frame.done, true⟩ : SentMsg).ack = false →
      (⟨Frame.done, true⟩ : SentMsg).frame = .pong
      ∨ (⟨Frame.done, true⟩ : SentMsg).frame = .error "invalid JSON")
    ∧ ((⟨Frame.done, true⟩ : SentMsg).frame = .done →
      (⟨Frame.done, true⟩ : SentMsg).ack = true) :=
  (C5_ack_discipline (.decoded ⟨none, some ⟨some (.num 2), "W5"⟩, some []⟩)
      (fun _ => .ok "d") (fun _ => .ok []) 0 []).1
    ⟨Frame.done, true⟩ (by decide)

/-- C8 counterexample: a place request whose `place` dictionary has no
`area` key. `float(msg['place']['area'])` raises `KeyError`, which the
`except ValueError` clause does not catch: no job is enqueued, no
`connected` reply is sent, and the handler dies — the claim that a missing
area yields priority 0 and an enqueued job fails. -/
theorem C8_counterexample :
    handle (.decoded ⟨none, some ⟨none, "P8"⟩, some []⟩) (fun _ => .ok "d")
        (fun _ => .ok []) 0 []
      = { frames := [], enqueued := none, worker := none,
          term := .crashed (.keyError "area") } := by
  decide

/-- C8 amended: the priority is `float(place.area)`; an area that parses
yields that number and a malformed area *string* yields 0 (`ValueError`
caught), in both cases the job is enqueued and `connected` is sent first,
with acknowledgment required. But a missing `area` key raises an uncaught
`KeyError`: no job is enqueued and nothing is sent. -/
theorem C8_priority_parse (ty : Option String) (tag : String) (cs : List Chunk)
    (v : AreaVal) (fetch : String → Except PyErr String)
    (statuses : Nat → StatusOutcome) (k : Nat) (cache : Cache)
    (hty : ty ≠ some "ping") :
    (∀ q : ℚ, pyFloat v = .ok q →
      (handle (.decoded ⟨ty, some ⟨some v, tag⟩, some cs⟩) fetch statuses k
          cache).enqueued = some (q, ⟨some v, tag⟩, cs)
      ∧ (handle (.decoded ⟨ty, some ⟨some v, tag⟩, some cs⟩) fetch statuses k
          cache).frames.head? = some ⟨.connected, true⟩)
    ∧ (pyFloat v = .error .valueError →
      (handle (.decoded ⟨ty, some ⟨some v, tag⟩, some cs⟩) fetch statuses k
          cache).enqueued = some (0, ⟨some v, tag⟩, cs)
      ∧ (handle (.decoded ⟨ty, some ⟨some v, tag⟩, some cs⟩) fetch statuses k
          cache).frames.head? = some ⟨.connected, true⟩)
    ∧ handle (.decoded ⟨ty, some ⟨none, tag⟩, some cs⟩) fetch statuses k cache
        = { frames := [], enqueued := none, worker := none,
            term := .crashed (.keyError "area") } := by
  refine ⟨fun q hq => ?_, fun hv => ?_, ?_⟩
  · constructor <;> simp [handle, hty, new_place_request, hq]
  · constructor <;> simp [handle, hty, new_place_request, hv]
  · simp [handle, hty, new_place_request]

/-- Witness for `C8_priority_parse`: a parseable area string `"7"` and an
unparsable area string. -/
theorem C8_priority_parse_witness :
    ((handle (.decoded ⟨none, some ⟨some (.str (some 7)), "W8"⟩, some []⟩)
        (fun _ => .ok "d") (fun _ => .ok []) 0 []).enqueued
      = some (7, ⟨some (.str (some 7)), "W8"⟩, [])
    ∧ (handle (.decoded ⟨none, some ⟨some (.str (some 7)), "W8"⟩, some []⟩)
        (fun _ => .ok "d") (fun _ => .ok []) 0 []).frames.head?
      = some ⟨.connected, true⟩)
    ∧ ((handle (.decoded ⟨none, some ⟨some (.str none), "W8"⟩, some []⟩)
        (fun _ => .ok "d") (fun _ => .ok []) 0 []).enqueued
      = some (0, ⟨some (.str none), "W8"⟩, [])
    ∧ (handle (.decoded ⟨none, some ⟨some (.str none), "W8"⟩, some []⟩)
        (fun _ => .ok "d") (fun _ => .ok []) 0 []).frames.head?
      = some ⟨.connected, true⟩) :=
  ⟨(C8_priority_parse none "W8" [] (.str (some 7)) (fun _ => .ok "d")
      (fun _ => .ok []) 0 [] (by decide)).1 7 rfl,
   (C8_priority_parse none "W8" [] (.str none) (fun _ => .ok "d")
      (fun _ => .ok []) 0 [] (by decide)).2.1 rfl⟩

/-- C9: a decodable non-ping message lacking the `place` key, the `area`
field, or the `chunks` key makes `new_place_request` raise before
`task_queue.put`: nothing is enqueued, no frame (neither `connected` nor an
error frame) is written, and the handler greenlet dies on the exception. -/
theorem C9_missing_keys (msg : RawMsg) (fetch : String → Except PyErr String)
    (statuses : Nat → StatusOutcome) (k : Nat) (cache : Cache)
    (hty : msg.type? ≠ some "ping")
    (hmiss : msg.place = none
      ∨ (∃ p, msg.place = some p ∧ p.area = none)
      ∨ msg.chunks = none) :
    (handle (.decoded msg) fetch statuses k cache).frames = []
    ∧ (handle (.decoded msg) fetch statuses k cache).enqueued = none
    ∧ ∃ e, (handle (.decoded msg) fetch statuses k cache).term = .crashed e := by
  obtain ⟨ty, pl, ch⟩ := msg
  simp only at hty
  rcases hmiss with h | ⟨p, hp, ha⟩ | h
  · simp only at h
    subst h
    simp [handle, hty, new_place_request]
  · simp only at hp ha
    subst hp
    simp [handle, hty, new_place_request, ha]
  · simp only at h
    subst h
    cases pl with
    | none => simp [handle, hty, new_place_request]
    | some p =>
        cases hpa : p.area with
        | none => simp [handle, hty, new_place_request, hpa]
        | some v =>
            cases v with
            | num q => simp [handle, hty, new_place_request, hpa, pyFloat]
            | str op =>
                cases op <;>
                  simp [handle, hty, new_place_request, hpa, pyFloat]
            | other => simp [handle, hty, new_place_request, hpa, pyFloat]

/-- Witness for `C9_missing_keys`: a message with no `place` key at all. -/
theorem C9_missing_keys_witness :
    (handle (.decoded ⟨some "place", none, some []⟩) (fun _ => .ok "d")
        (fun _ => .ok []) 0 []).frames = []
    ∧ (handle (.decoded ⟨some "place", none, some []⟩) (fun _ => .ok "d")
        (fun _ => .ok []) 0 []).enqueued = none
    ∧ ∃ e, (handle (.decoded ⟨some "place", none, some []⟩) (fun _ => .ok "d")
        (fun _ => .ok []) 0 []).term = .crashed e :=
  C9_missing_keys ⟨some "place", none, some []⟩ (fun _ => .ok "d")
    (fun _ => .ok []) 0 [] (by decide) (Or.inl rfl)

end TaskQueue
